import Mathlib

/-!
Verification of the create_hair_system Blender add-on
(src/create_hair_system/__init__.py).

The development shallowly embeds the add-on: the preset catalog is a pure
function from the add-on preferences to a record of strand parameters, the
cache-name resolver is a pure function over the cache names present on the
target object, and the provisioning operator (execute) is a state-passing
function over a scene record that also accumulates an event trace (one entry
per host mutation) and a report log.  Numeric scene values are modelled as
exact rationals; the scene is specialised to the single target object that
the design fixes (one active object, which is the object named in the
preferences).  Python percent-formatting of the retry counter is modelled by
an explicit decimal rendering function.
-/

namespace CreateHairSystem

/-! Decimal rendering of the retry counter

Python formats the cache-name suffix with a zero-padded minimum-width-3
decimal conversion.  We build it from an explicit digit list. -/

/-- One decimal digit rendered as a character (defined for digits 0..9). -/
def digitChar : Nat → Char
  | 0 => '0'
  | 1 => '1'
  | 2 => '2'
  | 3 => '3'
  | 4 => '4'
  | 5 => '5'
  | 6 => '6'
  | 7 => '7'
  | 8 => '8'
  | _ => '9'

/-- Numeric value of a decimal digit character. -/
def chVal (c : Char) : Nat := c.toNat - 48

/-- Big-endian decimal digits of n (empty for 0).  The first argument is
structural fuel; the rendering is exact whenever the fuel is at least n. -/
def decDigitsAux : Nat → Nat → List Char
  | 0, _ => []
  | fuel+1, n => if n = 0 then [] else decDigitsAux fuel (n / 10) ++ [digitChar (n % 10)]

/-- Big-endian decimal digits of n, empty for 0. -/
def decChars (n : Nat) : List Char := decDigitsAux n n

/-- The Python zero-padded width-3 decimal conversion used for the cache-name
suffix: the decimal digits of n, left-padded with zero characters to a minimum
width of 3. -/
def pad3 (n : Nat) : String :=
  ⟨List.replicate (3 - (decChars n).length) '0' ++ decChars n⟩

/-! The cache-name resolver (lines 71..77 and 582..586 of the source) -/

/-- Mirrors does_cache_name_exist_in_object: scan every particle system of the
active object and every point cache of that system, and report whether any
cache carries the proposed name.  The object is abstracted to its per-system
cache-name lists. -/
def does_cache_name_exist_in_object
    (systems : List (List String)) (proposed_name : String) : Bool :=
  systems.any fun point_caches => point_caches.any fun cache => cache == proposed_name

/-- The candidate cache name tried at loop counter n: the original name itself
for n = 0 (before the loop body runs), afterwards the original name with a dot
and the padded counter appended. -/
def cand (base : String) (n : Nat) : String :=
  if n = 0 then base else base ++ "." ++ pad3 n

/-- The retry loop of lines 582..586, with structural fuel: while the current
candidate exists on the object, bump the counter and retry. -/
def resolve_cache_name_aux (systems : List (List String)) (original : String) :
    Nat → Nat → String
  | idx, 0 => cand original idx
  | idx, fuel+1 =>
    if does_cache_name_exist_in_object systems (cand original idx) then
      resolve_cache_name_aux systems original (idx+1) fuel
    else cand original idx

/-- Total number of point caches on the object. -/
def total_cache_count (systems : List (List String)) : Nat :=
  (systems.map List.length).sum

/-- Unique cache-name resolution (lines 582..586): start from the proposed
base name and retry with an increasing padded counter while the name is taken.
Fuel one beyond the total cache count always suffices, by pigeonhole on the
distinct candidate names. -/
def resolve_cache_name (systems : List (List String)) (base : String) : String :=
  resolve_cache_name_aux systems base 0 (total_cache_count systems + 1)

/-! Data model: preferences and the preset catalog -/

/-- The closed EnumProperty of system types registered by the add-on. -/
inductive HairSystem
  | hair
  | fur
  | eyelashes
  | eyebrows
  | arm_hair
  | back_hair
  | chest_hair
  | leg_hair
  | stubble
deriving DecidableEq

/-- The EnumProperty identifier string of each system type, used by the source
as the branch key and as the particle-system display name. -/
def HairSystem.id : HairSystem → String
  | .hair => "hair"
  | .fur => "fur"
  | .eyelashes => "eyelashes"
  | .eyebrows => "eyebrows"
  | .arm_hair => "arm_hair"
  | .back_hair => "back_hair"
  | .chest_hair => "chest_hair"
  | .leg_hair => "leg_hair"
  | .stubble => "stubble"

/-- The closed EnumProperty of size buckets. -/
inductive Bucket
  | xs
  | s
  | m
  | l
  | xl
deriving DecidableEq

/-- Position of a bucket in the ordered enumeration XS, S, M, L, XL. -/
def Bucket.idx : Bucket → Nat
  | .xs => 0
  | .s => 1
  | .m => 2
  | .l => 3
  | .xl => 4

/-- The add-on preferences (class CreateHairSystemPreferencesPanel).  Particle
amounts are IntProperty values with a floor of 0, hence naturals; the closed
enum properties become the inductive types above.  Field defaults are the
registered property defaults. -/
structure Prefs where
  object_name : String := ""
  vertex_group_name : String := ""
  enum_hair_system : HairSystem := .hair
  systemhair_material : String := ""
  systemfur_material : String := ""
  systemeyelashes_material : String := ""
  systemeyebrows_material : String := ""
  systemarmhair_material : String := ""
  systembackhair_material : String := ""
  systemchesthair_material : String := ""
  systemleghair_material : String := ""
  systemstubble_material : String := ""
  enum_systemhair_hair_length : Bucket := .m
  enum_systemfur_hair_length : Bucket := .m
  enum_systemeyelashes_hair_length : Bucket := .m
  enum_systemeyebrows_hair_length : Bucket := .m
  enum_systemhair_hair_thickness : Bucket := .m
  enum_systemfur_hair_thickness : Bucket := .m
  enum_systemeyelashes_hair_thickness : Bucket := .m
  enum_systemeyebrows_hair_thickness : Bucket := .m
  enum_systemhair_hair_segments : Nat := 7
  enum_systemfur_hair_segments : Nat := 7
  systemhair_parent_particle_amount : Nat := 100
  systemhair_child_display_render_particle_amount : Nat := 3000
  systemfur_parent_particle_amount : Nat := 100
  systemfur_child_display_render_particle_amount : Nat := 3000
  systemeyelashes_parent_particle_amount : Nat := 100
  systemeyelashes_child_display_render_particle_amount : Nat := 3000
  systemeyebrows_parent_particle_amount : Nat := 100
  systemeyebrows_child_display_render_particle_amount : Nat := 3000
  systemarmhair_parent_particle_amount : Nat := 0
  systemarmhair_child_display_render_particle_amount : Nat := 0
  systembackhair_parent_particle_amount : Nat := 0
  systembackhair_child_display_render_particle_amount : Nat := 0
  systemchesthair_parent_particle_amount : Nat := 0
  systemchesthair_child_display_render_particle_amount : Nat := 0
  systemleghair_parent_particle_amount : Nat := 0
  systemleghair_child_display_render_particle_amount : Nat := 0
  systemstubble_parent_particle_amount : Nat := 0
  systemstubble_child_display_render_particle_amount : Nat := 0
  systemhair_hair_dynamics : Bool := true
  systemfur_hair_dynamics : Bool := true
  systemeyelashes_hair_dynamics : Bool := false
  systemeyebrows_hair_dynamics : Bool := false
  systemarmhair_hair_dynamics : Bool := false
  systembackhair_hair_dynamics : Bool := false
  systemchesthair_hair_dynamics : Bool := false
  systemleghair_hair_dynamics : Bool := false
  systemstubble_hair_dynamics : Bool := false
deriving DecidableEq

/-- The kink parameter values set by the curl presets (source locals
kink_amplitude, kink_clump, kink_flatness, kink_frequency, kink_shape). -/
structure KinkVals where
  kink_amplitude : ℚ
  kink_clump : ℚ
  kink_flatness : ℚ
  kink_frequency : ℚ
  kink_shape : ℚ
deriving DecidableEq

/-- The full set of locals computed by the preset branch of execute (lines
176..507).  The source local kink_type together with the kink values is
represented as an Option: none encodes kink_type NO and some encodes
kink_type CURL with its values. -/
structure Derived where
  parent_particle_amount : Nat
  child_display_render_particle_amount : Nat
  hair_segments : Nat
  strand_shape : ℚ
  hair_length : ℚ
  hair_dynamics : Bool
  material : String
  clump : ℚ
  clump_shape : ℚ
  use_emit_random : Bool
  userjit : Nat
  use_even_distribution : Bool
  jitter_factor : ℚ
  use_length_vertex_group : Bool
  child_type : String
  child_radius : ℚ
  child_length : ℚ
  hair_thickness : ℚ
  hair_tip : ℚ
  kink : Option KinkVals
deriving DecidableEq

/-- Hair preset: Emission hair length and child length per length bucket
(lines 196..210). -/
def hair_length_table : Bucket → ℚ × ℚ
  | .xs => (0.075, 1)
  | .s => (0.2, 1)
  | .m => (0.3375, 1)
  | .l => (0.475, 1)
  | .xl => (0.75, 1)

/-- Hair preset: root thickness per thickness bucket (lines 212..221). -/
def hair_thickness_table : Bucket → ℚ
  | .xs => 0.01
  | .s => 0.03
  | .m => 0.04
  | .l => 0.05
  | .xl => 0.06

/-- Fur preset: child length per length bucket (lines 247..256). -/
def fur_child_length_table : Bucket → ℚ
  | .xs => 0.125
  | .s => 0.25
  | .m => 0.5
  | .l => 0.75
  | .xl => 1

/-- Fur preset: root thickness per thickness bucket (lines 258..267). -/
def fur_thickness_table : Bucket → ℚ
  | .xs => 0.025
  | .s => 0.06875
  | .m => 0.1125
  | .l => 0.15625
  | .xl => 0.2

/-- Eyelashes preset: child length per length bucket (lines 293..302). -/
def eyelashes_child_length_table : Bucket → ℚ
  | .xs => 0.2
  | .s => 0.3
  | .m => 0.4
  | .l => 0.5
  | .xl => 1.0

/-- Eyelashes preset: root thickness per thickness bucket (lines 304..313). -/
def eyelashes_thickness_table : Bucket → ℚ
  | .xs => 0.009375
  | .s => 0.01875
  | .m => 0.0375
  | .l => 0.075
  | .xl => 0.10

/-- Eyebrows preset: child length per length bucket (lines 339..348). -/
def eyebrows_child_length_table : Bucket → ℚ
  | .xs => 0.25
  | .s => 0.5
  | .m => 1.0
  | .l => 1.5
  | .xl => 2.0

/-- Eyebrows preset: root thickness per thickness bucket (lines 350..359). -/
def eyebrows_thickness_table : Bucket → ℚ
  | .xs => 0.05
  | .s => 0.01
  | .m => 0.02
  | .l => 0.04
  | .xl => 0.08

/-- The preset catalog: the branch of execute on the selected system type
(lines 176..507), computing every local parameter from the preferences. -/
def derive (p : Prefs) : Derived :=
  match p.enum_hair_system with
  | .hair =>
    { parent_particle_amount := p.systemhair_parent_particle_amount
      child_display_render_particle_amount := p.systemhair_child_display_render_particle_amount
      hair_segments := p.enum_systemhair_hair_segments
      strand_shape := -0.75
      hair_length := (hair_length_table p.enum_systemhair_hair_length).1
      hair_dynamics := p.systemhair_hair_dynamics
      material := p.systemhair_material
      clump := 0.900
      clump_shape := 0
      use_emit_random := true
      userjit := 0
      use_even_distribution := false
      jitter_factor := 1.0
      use_length_vertex_group := false
      child_type := "SIMPLE"
      child_radius := 0.02
      child_length := (hair_length_table p.enum_systemhair_hair_length).2
      hair_thickness := hair_thickness_table p.enum_systemhair_hair_thickness
      hair_tip := 0
      kink := none }
  | .fur =>
    { parent_particle_amount := p.systemfur_parent_particle_amount
      child_display_render_particle_amount := p.systemfur_child_display_render_particle_amount
      hair_segments := p.enum_systemfur_hair_segments
      strand_shape := -0.5
      hair_length := 0.025
      hair_dynamics := p.systemfur_hair_dynamics
      material := p.systemfur_material
      clump := 0
      clump_shape := 0
      use_emit_random := true
      userjit := 0
      use_even_distribution := false
      jitter_factor := 1.0
      use_length_vertex_group := true
      child_type := "INTERPOLATED"
      child_radius := 0.001
      child_length := fur_child_length_table p.enum_systemfur_hair_length
      hair_thickness := fur_thickness_table p.enum_systemfur_hair_thickness
      hair_tip := 0
      kink := none }
  | .eyelashes =>
    { parent_particle_amount := p.systemeyelashes_parent_particle_amount
      child_display_render_particle_amount := p.systemeyelashes_child_display_render_particle_amount
      hair_segments := 5
      strand_shape := -0.25
      hair_length := 0.025
      hair_dynamics := p.systemeyelashes_hair_dynamics
      material := p.systemeyelashes_material
      clump := 1
      clump_shape := 0.999
      use_emit_random := false
      userjit := 1
      use_even_distribution := true
      jitter_factor := 0.0
      use_length_vertex_group := true
      child_type := "INTERPOLATED"
      child_radius := 0.001
      child_length := eyelashes_child_length_table p.enum_systemeyelashes_hair_length
      hair_thickness := eyelashes_thickness_table p.enum_systemeyelashes_hair_thickness
      hair_tip := 0
      kink := none }
  | .eyebrows =>
    { parent_particle_amount := p.systemeyebrows_parent_particle_amount
      child_display_render_particle_amount := p.systemeyebrows_child_display_render_particle_amount
      hair_segments := 3
      strand_shape := -0.750
      hair_length := 0.06
      hair_dynamics := p.systemeyebrows_hair_dynamics
      material := p.systemeyebrows_material
      clump := 0.933
      clump_shape := 0
      use_emit_random := true
      userjit := 0
      use_even_distribution := false
      jitter_factor := 1.0
      use_length_vertex_group := false
      child_type := "SIMPLE"
      child_radius := 0.001
      child_length := eyebrows_child_length_table p.enum_systemeyebrows_hair_length
      hair_thickness := eyebrows_thickness_table p.enum_systemeyebrows_hair_thickness
      hair_tip := 0
      kink := none }
  | .arm_hair =>
    { parent_particle_amount := p.systemarmhair_parent_particle_amount
      child_display_render_particle_amount := p.systemarmhair_child_display_render_particle_amount
      hair_segments := 3
      strand_shape := -0.750
      hair_length := 0.060
      hair_dynamics := p.systemarmhair_hair_dynamics
      material := p.systemarmhair_material
      clump := 0.933
      clump_shape := 0
      use_emit_random := true
      userjit := 0
      use_even_distribution := false
      jitter_factor := 1.0
      use_length_vertex_group := false
      child_type := "SIMPLE"
      child_radius := 0.025
      child_length := 0.500
      hair_thickness := 0.01
      hair_tip := 0
      kink := some { kink_amplitude := 0.00125, kink_clump := 0.1, kink_flatness := 0,
                     kink_frequency := 2.0, kink_shape := 0 } }
  | .back_hair =>
    { parent_particle_amount := p.systembackhair_parent_particle_amount
      child_display_render_particle_amount := p.systembackhair_child_display_render_particle_amount
      hair_segments := 3
      strand_shape := -0.750
      hair_length := 0.060
      hair_dynamics := p.systembackhair_hair_dynamics
      material := p.systembackhair_material
      clump := 0.933
      clump_shape := 0
      use_emit_random := true
      userjit := 0
      use_even_distribution := false
      jitter_factor := 1.0
      use_length_vertex_group := false
      child_type := "SIMPLE"
      child_radius := 0.040
      child_length := 0.200
      hair_thickness := 0.04
      hair_tip := 0.02
      kink := some { kink_amplitude := 0.005, kink_clump := 0, kink_flatness := 0,
                     kink_frequency := 3.0, kink_shape := 0 } }
  | .chest_hair =>
    { parent_particle_amount := p.systemchesthair_parent_particle_amount
      child_display_render_particle_amount := p.systemchesthair_child_display_render_particle_amount
      hair_segments := 3
      strand_shape := -0.800
      hair_length := 0.060
      hair_dynamics := p.systemchesthair_hair_dynamics
      material := p.systemchesthair_material
      clump := 0.933
      clump_shape := 0
      use_emit_random := true
      userjit := 0
      use_even_distribution := false
      jitter_factor := 1.0
      use_length_vertex_group := false
      child_type := "SIMPLE"
      child_radius := 0.040
      child_length := 0.600
      hair_thickness := 0.04
      hair_tip := 0.02
      kink := some { kink_amplitude := 0.0025, kink_clump := 0.100, kink_flatness := 0,
                     kink_frequency := 4.0, kink_shape := 0 } }
  | .leg_hair =>
    { parent_particle_amount := p.systemleghair_parent_particle_amount
      child_display_render_particle_amount := p.systemleghair_child_display_render_particle_amount
      hair_segments := 3
      strand_shape := -0.750
      hair_length := 0.060
      hair_dynamics := p.systemleghair_hair_dynamics
      material := p.systemleghair_material
      clump := 0.933
      clump_shape := 0
      use_emit_random := true
      userjit := 0
      use_even_distribution := false
      jitter_factor := 1.0
      use_length_vertex_group := false
      child_type := "SIMPLE"
      child_radius := 0.040
      child_length := 0.400
      hair_thickness := 0.04
      hair_tip := 0.01
      kink := some { kink_amplitude := 0.0025, kink_clump := 0.100, kink_flatness := 0,
                     kink_frequency := 4.0, kink_shape := 0 } }
  | .stubble =>
    { parent_particle_amount := p.systemstubble_parent_particle_amount
      child_display_render_particle_amount := p.systemstubble_child_display_render_particle_amount
      hair_segments := 3
      strand_shape := -0.800
      hair_length := 0.060
      hair_dynamics := p.systemstubble_hair_dynamics
      material := p.systemstubble_material
      clump := 0.933
      clump_shape := 0
      use_emit_random := true
      userjit := 0
      use_even_distribution := false
      jitter_factor := 1.0
      use_length_vertex_group := false
      child_type := "SIMPLE"
      child_radius := 0.005
      child_length := 0.750
      hair_thickness := 0.02
      hair_tip := 0.10
      kink := none }

/-! Scene model

The host scene is specialised to the single target object the design fixes:
the active object and the object named in the preferences are the same
object.  Every host mutation appends one event to a trace, which models the
mutation-count probe of the specification. -/

/-- ASCII upper-casing, modelling the Python upper call on modifier names. -/
def pyUpperChar (c : Char) : Char :=
  if 97 ≤ c.toNat ∧ c.toNat ≤ 122 then Char.ofNat (c.toNat - 32) else c

/-- ASCII upper-casing of a string. -/
def pyUpper (s : String) : String := ⟨s.data.map pyUpperChar⟩

/-- Replace the last element of a list, if any. -/
def updateLast (f : α → α) : List α → List α
  | [] => []
  | [a] => [f a]
  | a :: b :: rest => a :: updateLast f (b :: rest)

/-- Physics Collision modifier settings: the fields the operator reads and
writes. -/
structure Collision where
  absorption : ℚ
  permeability : ℚ
  stickiness : ℚ
  use_particle_kill : Bool
  damping_factor : ℚ
  damping_random : ℚ
  friction_factor : ℚ
  friction_random : ℚ
  damping : ℚ
  cloth_friction : ℚ
  use_culling : Bool
  use_normal : Bool
  thickness_inner : ℚ
  thickness_outer : ℚ
deriving DecidableEq

/-- The 13 collision values the operator carries across the modifier swap
(locals collision_absorption .. collision_thickness_inner). -/
structure CollisionCapture where
  absorption : ℚ
  permeability : ℚ
  stickiness : ℚ
  use_particle_kill : Bool
  damping_factor : ℚ
  damping_random : ℚ
  friction_factor : ℚ
  friction_random : ℚ
  damping : ℚ
  cloth_friction : ℚ
  use_culling : Bool
  use_normal : Bool
  thickness_inner : ℚ
deriving DecidableEq

/-- The default carry-over values of lines 114..126, used when no collision
modifier was present at entry. -/
def fallbackCapture : CollisionCapture :=
  { absorption := 0
    permeability := 0.1
    stickiness := 0.1
    use_particle_kill := false
    damping_factor := 0
    damping_random := 0
    friction_factor := 0
    friction_random := 0
    damping := 0.1
    cloth_friction := 5
    use_culling := true
    use_normal := false
    thickness_inner := 0.2 }

/-- Snapshot of the 13 fields of an existing collision modifier
(lines 136..148). -/
def captureCollision (c : Collision) : CollisionCapture :=
  { absorption := c.absorption
    permeability := c.permeability
    stickiness := c.stickiness
    use_particle_kill := c.use_particle_kill
    damping_factor := c.damping_factor
    damping_random := c.damping_random
    friction_factor := c.friction_factor
    friction_random := c.friction_random
    damping := c.damping
    cloth_friction := c.cloth_friction
    use_culling := c.use_culling
    use_normal := c.use_normal
    thickness_inner := c.thickness_inner }

/-- The hair-dynamics cloth block of a particle system: the structure
settings (mass, bending stiffness and damping) together with the collision
distance, flattened into one record. -/
structure ClothSettings where
  mass : ℚ
  bending_stiffness : ℚ
  bending_damping : ℚ
  distance_min : ℚ
deriving DecidableEq

/-- Host default cloth block, materialised when hair dynamics is enabled. -/
def hostDefaultCloth : ClothSettings :=
  { mass := 0.3, bending_stiffness := 0.5, bending_damping := 0.5, distance_min := 0.015 }

/-- A point-cache entry: the fields the operator writes. -/
structure PointCache where
  name : String
  frame_start : Int
  frame_end : Int
  use_disk_cache : Bool
  compression : String
deriving DecidableEq

/-- The point cache a freshly appended particle system carries: host
defaults, with a blank name. -/
def hostDefaultPointCache : PointCache :=
  { name := "", frame_start := 1, frame_end := 250, use_disk_cache := false,
    compression := "NO" }

/-- Particle-settings datablock: the fields the operator writes, plus the
kink block flattened into the record (a kink field value NO means no kink,
matching the host default of a fresh system). -/
structure PSettings where
  name : String
  type : String
  use_advanced_hair : Bool
  count : Nat
  hair_length : ℚ
  hair_step : Nat
  use_emit_random : Bool
  use_even_distribution : Bool
  userjit : Nat
  jitter_factor : ℚ
  child_type : String
  child_nbr : Nat
  rendered_child_count : Nat
  child_length : ℚ
  child_length_threshold : ℚ
  clump_factor : ℚ
  clump_shape : ℚ
  child_radius : ℚ
  display_step : Nat
  material_slot : String
  use_hair_bspline : Bool
  render_step : Nat
  shape : ℚ
  root_radius : ℚ
  tip_radius : ℚ
  factor_random : ℚ
  kink : String
  kink_amplitude : ℚ
  kink_amplitude_clump : ℚ
  kink_flat : ℚ
  kink_frequency : ℚ
  kink_shape : ℚ
deriving DecidableEq

/-- Host defaults of a fresh particle-settings datablock. -/
def hostDefaultPSettings : PSettings :=
  { name := "ParticleSettings", type := "EMITTER", use_advanced_hair := false,
    count := 1000, hair_length := 4, hair_step := 5, use_emit_random := true,
    use_even_distribution := true, userjit := 0, jitter_factor := 1,
    child_type := "NONE", child_nbr := 10, rendered_child_count := 100,
    child_length := 1, child_length_threshold := 0, clump_factor := 0,
    clump_shape := 0, child_radius := 0.2, display_step := 2, material_slot := "",
    use_hair_bspline := false, render_step := 3, shape := 0, root_radius := 1,
    tip_radius := 0, factor_random := 0, kink := "NO", kink_amplitude := 0.2,
    kink_amplitude_clump := 0, kink_flat := 0, kink_frequency := 2,
    kink_shape := 0 }

/-- A particle system on the object: name, settings, the dynamics flag, the
cloth block (present once dynamics has been enabled), the point caches and
the vertex-group bindings. -/
structure ParticleSystem where
  name : String
  settings : PSettings
  use_hair_dynamics : Bool
  cloth : Option ClothSettings
  point_caches : List PointCache
  vertex_group_density : String
  vertex_group_length : String
deriving DecidableEq

/-- A freshly appended particle system, as the host creates it. -/
def hostNewParticleSystem : ParticleSystem :=
  { name := "ParticleSystem", settings := hostDefaultPSettings,
    use_hair_dynamics := false, cloth := none,
    point_caches := [hostDefaultPointCache],
    vertex_group_density := "", vertex_group_length := "" }

/-- The single target object: name, interaction mode, modifier stack (by
name), the collision settings block (present exactly when a collision
modifier is), particle systems, vertex groups and material slots. -/
structure Obj where
  name : String
  mode : String
  modifiers : List String
  collision : Option Collision
  particle_systems : List ParticleSystem
  vertex_groups : List String
  material_slots : List String
deriving DecidableEq

/-- The host scene: the target object, the frame range, the basename of the
blend file (empty when the project has never been saved), and the field
values the host assigns to a freshly added collision modifier. -/
structure Scene where
  obj : Obj
  frame_start : Int
  frame_end : Int
  blendFileBasename : String
  hostCollisionDefault : Collision
deriving DecidableEq

/-- One host mutation, recorded in execution order. -/
inductive Event
  | modeSet (mode : String)
  | deselectAll
  | selectObject (name : String)
  | modifierRemove (name : String)
  | particleSystemAdd
  | psWrite (field : String)
  | settingsWrite (field : String)
  | setHairDynamics (value : Bool)
  | clothWrite (field : String)
  | cacheWrite (field : String)
  | modifierAdd (modType : String)
  | collisionWrite (field : String)
deriving DecidableEq

/-- Report level of a log entry. -/
inductive Level
  | info
  | error
deriving DecidableEq

/-- Operator outcome: FINISHED, CANCELLED, or an uncaught host exception. -/
inductive Outcome
  | finished
  | cancelled
  | exceptionRaised
deriving DecidableEq

/-- Execution state threaded through the operator: the scene, the mutation
trace and the report log. -/
structure St where
  scene : Scene
  events : List Event
  log : List (Level × String)
deriving DecidableEq

@[simp] def report (lvl : Level) (msg : String) (st : St) : St :=
  { st with log := st.log ++ [(lvl, msg)] }

@[simp] def emit (e : Event) (st : St) : St :=
  { st with events := st.events ++ [e] }

@[simp] def modObj (f : Obj → Obj) (st : St) : St :=
  { st with scene := { st.scene with obj := f st.scene.obj } }

@[simp] def opModeSet (m : String) (st : St) : St :=
  modObj (fun o => { o with mode := m }) (emit (.modeSet m) st)

@[simp] def opModifierRemove (nm : String) (st : St) : St :=
  modObj (fun o => { o with modifiers := o.modifiers.erase nm, collision := none })
    (emit (.modifierRemove nm) st)

@[simp] def opModifierAddCollision (st : St) : St :=
  modObj
    (fun o =>
      { o with
        modifiers := o.modifiers ++ ["Collision"]
        collision := some st.scene.hostCollisionDefault })
    (emit (.modifierAdd "COLLISION") st)

@[simp] def opParticleSystemAdd (st : St) : St :=
  modObj (fun o => { o with particle_systems := o.particle_systems ++ [hostNewParticleSystem] })
    (emit .particleSystemAdd st)

@[simp] def wPS (field : String) (f : ParticleSystem → ParticleSystem) (st : St) : St :=
  modObj (fun o => { o with particle_systems := updateLast f o.particle_systems })
    (emit (.psWrite field) st)

@[simp] def wSet (field : String) (f : PSettings → PSettings) (st : St) : St :=
  modObj
    (fun o =>
      { o with
        particle_systems :=
          updateLast (fun ps => { ps with settings := f ps.settings }) o.particle_systems })
    (emit (.settingsWrite field) st)

/-- Toggle hair dynamics on the newest particle system.  Enabling makes the
host materialise the cloth block (so the dynamics parameters become
configurable); per the specification of the host interface, the recorded
cloth settings persist when dynamics is disabled again. -/
@[simp] def opSetHairDynamics (b : Bool) (st : St) : St :=
  modObj
    (fun o =>
      { o with
        particle_systems :=
          updateLast
            (fun ps =>
              { ps with
                use_hair_dynamics := b
                cloth := if b then some (ps.cloth.getD hostDefaultCloth) else ps.cloth })
            o.particle_systems })
    (emit (.setHairDynamics b) st)

@[simp] def wCloth (field : String) (f : ClothSettings → ClothSettings) (st : St) : St :=
  modObj
    (fun o =>
      { o with
        particle_systems :=
          updateLast (fun ps => { ps with cloth := ps.cloth.map f }) o.particle_systems })
    (emit (.clothWrite field) st)

@[simp] def wCache (field : String) (f : PointCache → PointCache) (st : St) : St :=
  modObj
    (fun o =>
      { o with
        particle_systems :=
          updateLast (fun ps => { ps with point_caches := updateLast f ps.point_caches })
            o.particle_systems })
    (emit (.cacheWrite field) st)

@[simp] def wColl (field : String) (f : Collision → Collision) (st : St) : St :=
  modObj (fun o => { o with collision := o.collision.map f })
    (emit (.collisionWrite field) st)

/-! The operator -/

/-- The add-on script name. -/
def SCRIPT_NAME : String := "create_hair_system"

/-- Scan the modifier stack for a case-insensitive match on collision
(lines 128..132). -/
def findCollisionModifierName (modifiers : List String) : Option String :=
  modifiers.find? fun m => pyUpper m == "COLLISION"

/-- SYSTEM_NAME, lines 95..98: the enum identifier of the selected system
type, with the vertex group appended in parentheses when one is selected. -/
def systemDisplayName (p : Prefs) : String :=
  p.enum_hair_system.id ++
    (if p.vertex_group_name ≠ "" then " (" ++ p.vertex_group_name ++ ")" else "")

/-- Part 1 (lines 100..154): record the mode, switch to OBJECT, capture and
remove an existing collision modifier (matched case-insensitively), switch
back.  Returns the captured or fallback collision values.  The error case
models the Python attribute error raised when a collision-named modifier
exists but the host exposes no collision settings block. -/
def part1 (st : St) : Except St (CollisionCapture × St) :=
  let st := report .info "Removing Physics -> Collision (and storing parameter values) if present..." st
  let mode := st.scene.obj.mode
  let st := opModeSet "OBJECT" st
  match findCollisionModifierName st.scene.obj.modifiers with
  | some collisionModifierName =>
    match st.scene.obj.collision with
    | some c =>
      let cap := captureCollision c
      let st := report .info "Temporarily removing Physics -> Collision (will restore it at the end)..." st
      let st := opModifierRemove collisionModifierName st
      .ok (cap, opModeSet mode st)
    | none => .error st
  | none => .ok (fallbackCapture, opModeSet mode st)

/-- Lines 514..602: every write onto the new particle system after the
vertex-group bindings, then the dynamics enable-configure-maybe-disable
block, the cache configuration, and the trailing mode restore.  The mode
argument is the mode recorded at the start of Part 2. -/
def part2writes (p : Prefs) (d : Derived) (mode : String) (st : St) : St :=
  let st := wSet "use_advanced_hair" (fun q => { q with use_advanced_hair := true }) st
  let st := wSet "count" (fun q => { q with count := d.parent_particle_amount }) st
  let st := wSet "hair_length" (fun q => { q with hair_length := d.hair_length }) st
  let st := wSet "hair_step" (fun q => { q with hair_step := d.hair_segments }) st
  let st := wSet "use_emit_random" (fun q => { q with use_emit_random := d.use_emit_random }) st
  let st := wSet "use_even_distribution" (fun q => { q with use_even_distribution := d.use_even_distribution }) st
  let st := wSet "userjit" (fun q => { q with userjit := d.userjit }) st
  let st := wSet "jitter_factor" (fun q => { q with jitter_factor := d.jitter_factor }) st
  let st := wSet "child_type" (fun q => { q with child_type := d.child_type }) st
  let st := wSet "child_nbr" (fun q => { q with child_nbr := d.child_display_render_particle_amount }) st
  let st := wSet "rendered_child_count" (fun q => { q with rendered_child_count := d.child_display_render_particle_amount }) st
  let st := wSet "child_length" (fun q => { q with child_length := d.child_length }) st
  let st := wSet "child_length_threshold" (fun q => { q with child_length_threshold := 0 }) st
  let st := wSet "clump_factor" (fun q => { q with clump_factor := d.clump }) st
  let st := wSet "clump_shape" (fun q => { q with clump_shape := d.clump_shape }) st
  let st := wSet "child_radius" (fun q => { q with child_radius := d.child_radius }) st
  let st := wSet "display_step" (fun q => { q with display_step := d.hair_segments }) st
  let st :=
    if d.material ≠ "" then
      if d.material ∈ st.scene.obj.material_slots then
        wSet "material_slot" (fun q => { q with material_slot := d.material }) st
      else st
    else st
  let st := wSet "use_hair_bspline" (fun q => { q with use_hair_bspline := true }) st
  let st := wSet "render_step" (fun q => { q with render_step := d.hair_segments }) st
  let st := wSet "shape" (fun q => { q with shape := d.strand_shape }) st
  let st := wSet "root_radius" (fun q => { q with root_radius := d.hair_thickness }) st
  let st := wSet "tip_radius" (fun q => { q with tip_radius := d.hair_tip }) st
  let st :=
    match d.kink with
    | some k =>
      let st := wSet "kink" (fun q => { q with kink := "CURL" }) st
      let st := wSet "kink_amplitude" (fun q => { q with kink_amplitude := k.kink_amplitude }) st
      let st := wSet "kink_amplitude_clump" (fun q => { q with kink_amplitude_clump := k.kink_clump }) st
      let st := wSet "kink_flat" (fun q => { q with kink_flat := k.kink_flatness }) st
      let st := wSet "kink_frequency" (fun q => { q with kink_frequency := k.kink_frequency }) st
      wSet "kink_shape" (fun q => { q with kink_shape := k.kink_shape }) st
    | none => st
  let st := opSetHairDynamics true st
  -- Lines 563..564 write Velocity Randomize twice: once through the settings
  -- of the new system and once through the settings datablock looked up by
  -- its freshly assigned name, which is the same datablock here.
  let st := wSet "factor_random" (fun q => { q with factor_random := 0.01 }) st
  let st := wSet "factor_random" (fun q => { q with factor_random := 0.01 }) st
  let st :=
    match (st.scene.obj.particle_systems.getLast?).bind ParticleSystem.cloth with
    | some _ =>
      let st := wCloth "mass" (fun c => { c with mass := 0.001 }) st
      let st := wCloth "bending_stiffness" (fun c => { c with bending_stiffness := 1.0 }) st
      let st := wCloth "bending_damping" (fun c => { c with bending_damping := 0 }) st
      wCloth "distance_min" (fun c => { c with distance_min := 0.001 }) st
    | none => st
  let base := st.scene.obj.name ++
    (if p.vertex_group_name ≠ "" then " " ++ p.vertex_group_name else "")
  let cache_name := resolve_cache_name
    (st.scene.obj.particle_systems.map (fun ps => ps.point_caches.map PointCache.name)) base
  let st := wCache "name" (fun c => { c with name := cache_name }) st
  let st := wCache "frame_start" (fun c => { c with frame_start := st.scene.frame_start }) st
  let st := wCache "frame_end" (fun c => { c with frame_end := st.scene.frame_end }) st
  let st := wCache "use_disk_cache" (fun c => { c with use_disk_cache := true }) st
  let st := wCache "compression" (fun c => { c with compression := "HEAVY" }) st
  let st := if d.hair_dynamics then st else opSetHairDynamics false st
  opModeSet mode st

/-- Part 2 (lines 156..602): select the target object, append a particle
system, rename it, derive the preset parameters and write them.  Errors model
the Python exceptions when the named object or the selected vertex group does
not exist; in this single-object scene the select call re-activates the same
object. -/
def part2 (p : Prefs) (sysName : String) (st : St) : Except St St :=
  let st := report .info "Adding particle system..." st
  let mode := st.scene.obj.mode
  let st := opModeSet "OBJECT" st
  let st := emit .deselectAll st
  if p.object_name = st.scene.obj.name then
    let st := emit (.selectObject p.object_name) st
    let st := opParticleSystemAdd st
    let st := wPS "name" (fun ps => { ps with name := sysName }) st
    let st := wSet "name" (fun q => { q with name := sysName }) st
    let st := wSet "type" (fun q => { q with type := "HAIR" }) st
    let d := derive p
    if p.vertex_group_name ≠ "" then
      if p.vertex_group_name ∈ st.scene.obj.vertex_groups then
        let st := wPS "vertex_group_density"
          (fun ps => { ps with vertex_group_density := p.vertex_group_name }) st
        let st :=
          if d.use_length_vertex_group then
            wPS "vertex_group_length"
              (fun ps => { ps with vertex_group_length := p.vertex_group_name }) st
          else st
        .ok (part2writes p d mode st)
      else .error st
    else .ok (part2writes p d mode st)
  else .error st

/-- Part 3 (lines 604..639): re-add the collision modifier (programmatic adds
use the uppercase type and produce a modifier named Collision), write back the
13 carried values, apply the unconditional outer-thickness override, restore
the mode and close the log. -/
def part3 (cap : CollisionCapture) (st : St) : St :=
  let st := report .info "Adding Physics -> Collection..." st
  let mode := st.scene.obj.mode
  let st := opModeSet "OBJECT" st
  let st := opModifierAddCollision st
  let st := wColl "absorption" (fun c => { c with absorption := cap.absorption }) st
  let st := wColl "permeability" (fun c => { c with permeability := cap.permeability }) st
  let st := wColl "stickiness" (fun c => { c with stickiness := cap.stickiness }) st
  let st := wColl "use_particle_kill" (fun c => { c with use_particle_kill := cap.use_particle_kill }) st
  let st := wColl "damping_factor" (fun c => { c with damping_factor := cap.damping_factor }) st
  let st := wColl "damping_random" (fun c => { c with damping_random := cap.damping_random }) st
  let st := wColl "friction_factor" (fun c => { c with friction_factor := cap.friction_factor }) st
  let st := wColl "friction_random" (fun c => { c with friction_random := cap.friction_random }) st
  let st := wColl "damping" (fun c => { c with damping := cap.damping }) st
  let st := wColl "cloth_friction" (fun c => { c with cloth_friction := cap.cloth_friction }) st
  let st := wColl "use_culling" (fun c => { c with use_culling := cap.use_culling }) st
  let st := wColl "use_normal" (fun c => { c with use_normal := cap.use_normal }) st
  let st := wColl "thickness_inner" (fun c => { c with thickness_inner := cap.thickness_inner }) st
  let st := wColl "thickness_outer" (fun c => { c with thickness_outer := 0.015 }) st
  let st := opModeSet mode st
  let st := report .info (SCRIPT_NAME ++ " - END") st
  let st := report .info "**********************************" st
  report .info ("Done running script " ++ SCRIPT_NAME) st

/-- The opening log entries of execute (lines 86..95): the banner, the start
marker, and the announcement of the selected system type. -/
def startLog (p : Prefs) (s0 : Scene) : St :=
  report .info ("Creating this kind of system: " ++ p.enum_hair_system.id)
    (report .info (SCRIPT_NAME ++ " - START")
      (report .info "**********************************"
        { scene := s0, events := [], log := [] }))

/-- The operator execute method (lines 83..641): the save-identity guard,
then the three parts in sequence.  On the guard path only the first two
banner entries and the error entry are logged. -/
def execute (p : Prefs) (s0 : Scene) : Outcome × St :=
  if s0.blendFileBasename.length = 0 then
    (.cancelled,
      report .error "  ERROR: The project file must be saved before adding the particle system. Save this project and run the script again."
        (report .info (SCRIPT_NAME ++ " - START")
          (report .info "**********************************"
            { scene := s0, events := [], log := [] })))
  else
    match part1 (startLog p s0) with
    | .error stE => (.exceptionRaised, stE)
    | .ok (cap, st) =>
      match part2 p (systemDisplayName p) st with
      | .error stE => (.exceptionRaised, stE)
      | .ok st => (.finished, part3 cap st)

/-! Derived notions used in the statements -/

/-- Projection of the event trace onto the hair-dynamics toggles and the
cloth-block writes, used to state the enable, configure, maybe-disable
ordering of the dynamics block. -/
def dcProj : Event → Option Event
  | .setHairDynamics b => some (.setHairDynamics b)
  | .clothWrite f => some (.clothWrite f)
  | _ => none

/-- The collision record produced by the restore block of Part 3: the 13
carried values plus the unconditional outer-thickness override. -/
def restoredCollision (cap : CollisionCapture) : Collision :=
  { absorption := cap.absorption
    permeability := cap.permeability
    stickiness := cap.stickiness
    use_particle_kill := cap.use_particle_kill
    damping_factor := cap.damping_factor
    damping_random := cap.damping_random
    friction_factor := cap.friction_factor
    friction_random := cap.friction_random
    damping := cap.damping
    cloth_friction := cap.cloth_friction
    use_culling := cap.use_culling
    use_normal := cap.use_normal
    thickness_inner := cap.thickness_inner
    thickness_outer := 0.015 }

/-- The cloth-block constants written by lines 566..570. -/
def configuredCloth : ClothSettings :=
  { mass := 0.001, bending_stiffness := 1.0, bending_damping := 0,
    distance_min := 0.001 }

/-! Concrete inputs for witnesses and counterexamples -/

/-- A collision configuration present on the object at entry (stickiness 0.3,
as in the specification example). -/
def sampleCollision : Collision :=
  { absorption := 0.25, permeability := 0.5, stickiness := 0.3,
    use_particle_kill := true, damping_factor := 0.6, damping_random := 0.7,
    friction_factor := 0.8, friction_random := 0.9, damping := 0.35,
    cloth_friction := 4, use_culling := false, use_normal := true,
    thickness_inner := 0.45, thickness_outer := 0.55 }

/-- Arbitrary host defaults for a freshly added collision modifier. -/
def sampleHostCollisionDefault : Collision :=
  { absorption := 0, permeability := 1, stickiness := 0,
    use_particle_kill := false, damping_factor := 0, damping_random := 0,
    friction_factor := 0, friction_random := 0, damping := 0,
    cloth_friction := 0, use_culling := true, use_normal := false,
    thickness_inner := 0, thickness_outer := 0 }

/-- A bare target object named Body, in sculpt mode, with no modifiers and no
particle systems. -/
def bodyObj : Obj :=
  { name := "Body", mode := "SCULPT", modifiers := [], collision := none,
    particle_systems := [], vertex_groups := [], material_slots := [] }

/-- A saved scene around the bare Body object. -/
def bodyScene : Scene :=
  { obj := bodyObj, frame_start := 1, frame_end := 250,
    blendFileBasename := "project.blend",
    hostCollisionDefault := sampleHostCollisionDefault }

/-- The Body object carrying a collision modifier configured as
sampleCollision. -/
def bodyObjWithCollision : Obj :=
  { bodyObj with modifiers := ["Collision"], collision := some sampleCollision }

/-- A saved scene around the Body object with a collision modifier. -/
def bodySceneWithCollision : Scene :=
  { bodyScene with obj := bodyObjWithCollision }

/-- The same scene before any save: the blend-file basename is empty. -/
def unsavedScene : Scene :=
  { bodyScene with blendFileBasename := "" }

/-- Preferences requesting a hair system on Body, everything else default. -/
def hairPrefs : Prefs := { object_name := "Body" }

/-- Preferences requesting a stubble system on Body. -/
def stubblePrefs : Prefs := { object_name := "Body", enum_hair_system := .stubble }

/-- Preferences requesting an arm-hair system on Body. -/
def armHairPrefs : Prefs := { object_name := "Body", enum_hair_system := .arm_hair }

/-! Theorems -/

@[simp] theorem updateLast_concat (f : α → α) (l : List α) (x : α) :
    updateLast f (l ++ [x]) = l ++ [f x] := by
  induction l with
  | nil => rfl
  | cons a t ih =>
    cases t with
    | nil => simp [updateLast] at ih ⊢
    | cons b t2 => simpa [updateLast] using ih

theorem chVal_digitChar {d : Nat} (h : d < 10) : chVal (digitChar d) = d := by
  interval_cases d <;> decide

theorem foldl_decDigitsAux (fuel : Nat) : ∀ n a, n ≤ fuel →
    List.foldl (fun acc c => 10 * acc + chVal c) a (decDigitsAux fuel n)
      = a * 10 ^ (decDigitsAux fuel n).length + n := by
  induction fuel with
  | zero =>
    intro n a h
    interval_cases n
    simp [decDigitsAux]
  | succ fuel ih =>
    intro n a h
    by_cases h0 : n = 0
    · simp [decDigitsAux, h0]
    · have hlt : n / 10 < n := Nat.div_lt_self (Nat.pos_of_ne_zero h0) (by norm_num)
      have hle : n / 10 ≤ fuel := by omega
      have hmod : n % 10 < 10 := Nat.mod_lt n (by norm_num)
      have hdm := Nat.div_add_mod n 10
      simp only [decDigitsAux, h0, if_false, List.foldl_append, List.length_append]
      rw [ih (n / 10) a hle]
      simp only [List.foldl_cons, List.foldl_nil, List.length_cons, List.length_nil,
        chVal_digitChar hmod]
      rw [pow_succ]
      have hring : a * (10 ^ (decDigitsAux fuel (n / 10)).length * 10)
          = 10 * (a * 10 ^ (decDigitsAux fuel (n / 10)).length) := by ring
      omega

theorem strNat_decChars (n : Nat) :
    List.foldl (fun acc c => 10 * acc + chVal c) 0 (decChars n) = n := by
  simpa using foldl_decDigitsAux n n 0 le_rfl

theorem foldl_replicate_zeroChar (k : Nat) :
    List.foldl (fun acc c => 10 * acc + chVal c) 0 (List.replicate k '0') = 0 := by
  induction k with
  | zero => rfl
  | succ k ih => simpa [List.replicate_succ, chVal] using ih

theorem strNat_pad3 (n : Nat) :
    List.foldl (fun acc c => 10 * acc + chVal c) 0 (pad3 n).data = n := by
  show List.foldl _ 0 (List.replicate (3 - (decChars n).length) '0' ++ decChars n) = n
  rw [List.foldl_append, foldl_replicate_zeroChar]
  exact strNat_decChars n

theorem pad3_injective : Function.Injective pad3 := by
  intro m n h
  have hm := strNat_pad3 m
  rw [h, strNat_pad3 n] at hm
  exact hm.symm

theorem three_le_length_pad3 (n : Nat) : 3 ≤ (pad3 n).length := by
  show 3 ≤ (List.replicate (3 - (decChars n).length) '0' ++ decChars n).length
  rw [List.length_append, List.length_replicate]
  omega

theorem exist_iff_mem_flatten (systems : List (List String)) (s : String) :
    does_cache_name_exist_in_object systems s = true ↔ s ∈ systems.flatten := by
  simp only [does_cache_name_exist_in_object, List.any_eq_true, beq_iff_eq,
    List.mem_flatten]
  constructor
  · rintro ⟨l, hl, c, hc, rfl⟩
    exact ⟨l, hl, hc⟩
  · rintro ⟨l, hl, hc⟩
    exact ⟨l, hl, s, hc, rfl⟩

theorem cand_injective (base : String) : Function.Injective (cand base) := by
  intro m n h
  unfold cand at h
  by_cases hm : m = 0 <;> by_cases hn : n = 0
  · omega
  · exfalso
    rw [if_pos hm, if_neg hn] at h
    have hlen := congrArg String.length h
    rw [String.length_append, String.length_append] at hlen
    have h3 := three_le_length_pad3 n
    omega
  · exfalso
    rw [if_neg hm, if_pos hn] at h
    have hlen := congrArg String.length h
    rw [String.length_append, String.length_append] at hlen
    have h3 := three_le_length_pad3 m
    omega
  · rw [if_neg hm, if_neg hn] at h
    have hd := congrArg String.data h
    simp only [String.data_append, List.append_assoc] at hd
    have h2 := List.append_cancel_left hd
    have h3 := List.append_cancel_left h2
    exact pad3_injective (String.ext h3)

theorem exists_good_cand (systems : List (List String)) (base : String) :
    ∃ n, n ≤ systems.flatten.length ∧
      does_cache_name_exist_in_object systems (cand base n) = false := by
  by_contra hall
  push_neg at hall
  have hmem : ∀ i : Fin (systems.flatten.length + 1),
      cand base (i : Nat) ∈ systems.flatten := by
    intro i
    have hi := hall (i : Nat) (by omega)
    have hi2 : does_cache_name_exist_in_object systems (cand base (i : Nat)) = true := by
      simpa using hi
    exact (exist_iff_mem_flatten systems _).1 hi2
  have h1 : (Finset.univ : Finset (Fin (systems.flatten.length + 1))).card ≤
      systems.flatten.toFinset.card := by
    apply Finset.card_le_card_of_injOn (fun i : Fin (systems.flatten.length + 1) =>
      cand base (i : Nat)) (fun a _ => List.mem_toFinset.mpr (hmem a))
    intro a _ b _ hab
    exact Fin.ext (cand_injective base hab)
  have h2 := List.toFinset_card_le systems.flatten
  rw [Finset.card_univ, Fintype.card_fin] at h1
  omega

theorem resolve_cache_name_aux_eq (systems : List (List String)) (base : String) :
    ∀ fuel idx m, idx ≤ m → m ≤ idx + fuel →
      does_cache_name_exist_in_object systems (cand base m) = false →
      (∀ j, idx ≤ j → j < m →
        does_cache_name_exist_in_object systems (cand base j) = true) →
      resolve_cache_name_aux systems base idx fuel = cand base m := by
  intro fuel
  induction fuel with
  | zero =>
    intro idx m h1 h2 _ _
    have : m = idx := by omega
    rw [this]
    rfl
  | succ fuel ih =>
    intro idx m h1 h2 h3 h4
    by_cases hidx : m = idx
    · subst hidx
      simp [resolve_cache_name_aux, h3]
    · have hj := h4 idx le_rfl (by omega)
      simp only [resolve_cache_name_aux, hj, if_true]
      exact ih (idx+1) m (by omega) (by omega) h3 (fun j hj1 hj2 => h4 j (by omega) hj2)

theorem resolve_cache_name_spec (systems : List (List String)) (base : String) :
    ∃ n, resolve_cache_name systems base = cand base n ∧
      does_cache_name_exist_in_object systems (cand base n) = false ∧
      ∀ j, j < n → does_cache_name_exist_in_object systems (cand base j) = true := by
  obtain ⟨k, hkle, hk⟩ := exists_good_cand systems base
  have hex : ∃ n, does_cache_name_exist_in_object systems (cand base n) = false :=
    ⟨k, hk⟩
  refine ⟨Nat.find hex, ?_, Nat.find_spec hex, ?_⟩
  · have htot : total_cache_count systems = systems.flatten.length := by
      simp [total_cache_count]
    apply resolve_cache_name_aux_eq systems base _ 0 (Nat.find hex) (Nat.zero_le _)
      (by have := Nat.find_min' hex hk; omega) (Nat.find_spec hex)
    intro j _ hj
    have := Nat.find_min hex hj
    simpa using this
  · intro j hj
    have := Nat.find_min hex hj
    simpa using this

/-- C1: cache-name resolution returns the base name unchanged when it is not
among the existing cache names; otherwise it returns the base name extended by
a dot and the zero-padded width-3 decimal of the smallest counter n at least 1
whose resulting name is free; with existing names Body and Body.001 the base
Body resolves to Body.002; and the returned name is never an existing name. -/
theorem cache_name_resolution_correct :
    ∀ (systems : List (List String)) (base : String),
      (does_cache_name_exist_in_object systems base = false →
        resolve_cache_name systems base = base) ∧
      (does_cache_name_exist_in_object systems base = true →
        ∃ n, 1 ≤ n ∧ resolve_cache_name systems base = base ++ "." ++ pad3 n ∧
          does_cache_name_exist_in_object systems (base ++ "." ++ pad3 n) = false ∧
          ∀ m, 1 ≤ m → m < n →
            does_cache_name_exist_in_object systems (base ++ "." ++ pad3 m) = true) ∧
      does_cache_name_exist_in_object systems (resolve_cache_name systems base) = false ∧
      resolve_cache_name [["Body", "Body.001"]] "Body" = "Body.002" := by
  intro systems base
  obtain ⟨n, hres, hgood, hmin⟩ := resolve_cache_name_spec systems base
  refine ⟨?_, ?_, ?_, by decide⟩
  · intro hb
    rcases Nat.eq_zero_or_pos n with h0 | hpos
    · rw [hres, h0]
      rfl
    · have h1 := hmin 0 hpos
      rw [show cand base 0 = base from rfl, hb] at h1
      simp at h1
  · intro hb
    have hn0 : n ≠ 0 := by
      intro h0
      rw [h0, show cand base 0 = base from rfl, hb] at hgood
      simp at hgood
    refine ⟨n, Nat.one_le_iff_ne_zero.mpr hn0, ?_, ?_, ?_⟩
    · rw [hres]
      simp [cand, hn0]
    · have := hgood
      simpa [cand, hn0] using this
    · intro m hm1 hmn
      have hmne : m ≠ 0 := Nat.one_le_iff_ne_zero.mp hm1
      have := hmin m hmn
      simpa [cand, hmne] using this
  · rw [hres]
    exact hgood

/-- Witness for C1 at the concrete input from the specification. -/
theorem cache_name_resolution_correct_witness :
    resolve_cache_name [["Body", "Body.001"]] "Body" = "Body.002" ∧
    does_cache_name_exist_in_object [["Body", "Body.001"]]
      (resolve_cache_name [["Body", "Body.001"]] "Body") = false :=
  ⟨(cache_name_resolution_correct [["Body", "Body.001"]] "Body").2.2.2,
   (cache_name_resolution_correct [["Body", "Body.001"]] "Body").2.2.1⟩

/-! Claims about the preset catalog (C4, C6, C7) -/

/-- C6: a Hair request with length bucket M, thickness bucket M and the
default segments preference 7 derives hair length 0.3375, child length 1,
root thickness 0.04, segment count 7, child distribution SIMPLE and clump
factor 0.9. -/
theorem hair_m_m_derivation (p : Prefs)
    (hs : p.enum_hair_system = .hair)
    (hl : p.enum_systemhair_hair_length = .m)
    (ht : p.enum_systemhair_hair_thickness = .m)
    (hseg : p.enum_systemhair_hair_segments = 7) :
    (derive p).hair_length = 0.3375 ∧ (derive p).child_length = 1 ∧
    (derive p).hair_thickness = 0.04 ∧ (derive p).hair_segments = 7 ∧
    (derive p).child_type = "SIMPLE" ∧ (derive p).clump = 0.9 := by
  simp only [derive, hs, hl, ht, hseg, hair_length_table, hair_thickness_table]
  norm_num

/-- Witness for C6 at the default preferences. -/
theorem hair_m_m_derivation_witness :
    (derive ({} : Prefs)).hair_length = 0.3375 ∧ (derive ({} : Prefs)).child_length = 1 ∧
    (derive ({} : Prefs)).hair_thickness = 0.04 ∧ (derive ({} : Prefs)).hair_segments = 7 ∧
    (derive ({} : Prefs)).child_type = "SIMPLE" ∧ (derive ({} : Prefs)).clump = 0.9 :=
  hair_m_m_derivation {} rfl rfl rfl rfl

/-- C7: an Eyebrows request with length bucket S and thickness bucket L
derives child length 0.5, root thickness 0.04, segment count 3, strand taper
shape negative 0.75, and use_length_vertex_group false. -/
theorem eyebrows_s_l_derivation (p : Prefs)
    (hs : p.enum_hair_system = .eyebrows)
    (hl : p.enum_systemeyebrows_hair_length = .s)
    (ht : p.enum_systemeyebrows_hair_thickness = .l) :
    (derive p).child_length = 0.5 ∧ (derive p).hair_thickness = 0.04 ∧
    (derive p).hair_segments = 3 ∧ (derive p).strand_shape = -0.75 ∧
    (derive p).use_length_vertex_group = false := by
  simp only [derive, hs, hl, ht, eyebrows_child_length_table, eyebrows_thickness_table]
  norm_num

/-- Witness for C7 at a concrete preference record. -/
theorem eyebrows_s_l_derivation_witness :
    (derive { enum_hair_system := .eyebrows, enum_systemeyebrows_hair_length := .s,
              enum_systemeyebrows_hair_thickness := .l }).child_length = 0.5 ∧
    (derive { enum_hair_system := .eyebrows, enum_systemeyebrows_hair_length := .s,
              enum_systemeyebrows_hair_thickness := .l }).hair_thickness = 0.04 ∧
    (derive { enum_hair_system := .eyebrows, enum_systemeyebrows_hair_length := .s,
              enum_systemeyebrows_hair_thickness := .l }).hair_segments = 3 ∧
    (derive { enum_hair_system := .eyebrows, enum_systemeyebrows_hair_length := .s,
              enum_systemeyebrows_hair_thickness := .l }).strand_shape = -0.75 ∧
    (derive { enum_hair_system := .eyebrows, enum_systemeyebrows_hair_length := .s,
              enum_systemeyebrows_hair_thickness := .l }).use_length_vertex_group = false :=
  eyebrows_s_l_derivation _ rfl rfl rfl

/-- C4 counterexample: the eyebrows thickness is not monotone across the
ordered buckets: the bucket XS is below S, yet the derived thickness drops
from 0.05 at XS to 0.01 at S. -/
theorem eyebrows_thickness_not_monotone :
    Bucket.idx .xs ≤ Bucket.idx .s ∧
    (derive { enum_hair_system := .eyebrows,
              enum_systemeyebrows_hair_thickness := .s }).hair_thickness
      < (derive { enum_hair_system := .eyebrows,
                  enum_systemeyebrows_hair_thickness := .xs }).hair_thickness := by
  refine ⟨by decide, ?_⟩
  simp only [derive, eyebrows_thickness_table]
  norm_num

/-- C4 amended: across the ordered buckets, child length and thickness are
monotonically non-decreasing for the hair, fur and eyelashes presets, child
length is monotone for eyebrows, and eyebrows thickness is monotone only from
S upward: at XS it is 0.05, above the S value 0.01; every derived record has
non-negative counts. -/
theorem size_tables_monotone_amended :
    (∀ b1 b2 : Bucket, b1.idx ≤ b2.idx →
      (hair_length_table b1).2 ≤ (hair_length_table b2).2 ∧
      hair_thickness_table b1 ≤ hair_thickness_table b2 ∧
      fur_child_length_table b1 ≤ fur_child_length_table b2 ∧
      fur_thickness_table b1 ≤ fur_thickness_table b2 ∧
      eyelashes_child_length_table b1 ≤ eyelashes_child_length_table b2 ∧
      eyelashes_thickness_table b1 ≤ eyelashes_thickness_table b2 ∧
      eyebrows_child_length_table b1 ≤ eyebrows_child_length_table b2) ∧
    (∀ b1 b2 : Bucket, b1 ≠ .xs → b1.idx ≤ b2.idx →
      eyebrows_thickness_table b1 ≤ eyebrows_thickness_table b2) ∧
    eyebrows_thickness_table .s < eyebrows_thickness_table .xs ∧
    (∀ p : Prefs, 0 ≤ (derive p).parent_particle_amount ∧
      0 ≤ (derive p).child_display_render_particle_amount) := by
  refine ⟨?_, ?_, ?_, fun p => ⟨Nat.zero_le _, Nat.zero_le _⟩⟩
  · intro b1 b2 h
    cases b1 <;> cases b2 <;>
      first
        | exact absurd h (by decide)
        | exact ⟨by norm_num [hair_length_table], by norm_num [hair_thickness_table],
            by norm_num [fur_child_length_table], by norm_num [fur_thickness_table],
            by norm_num [eyelashes_child_length_table], by norm_num [eyelashes_thickness_table],
            by norm_num [eyebrows_child_length_table]⟩
  · intro b1 b2 hne h
    cases b1 <;> cases b2 <;>
      first
        | exact absurd rfl hne
        | exact absurd h (by decide)
        | exact by norm_num [eyebrows_thickness_table]
  · norm_num [eyebrows_thickness_table]

/-- Witness for the amended C4 at concrete buckets. -/
theorem size_tables_monotone_amended_witness :
    hair_thickness_table Bucket.xs ≤ hair_thickness_table Bucket.xl ∧
    eyebrows_thickness_table Bucket.s ≤ eyebrows_thickness_table Bucket.xl :=
  ⟨(size_tables_monotone_amended.1 Bucket.xs Bucket.xl (by decide)).2.1,
   size_tables_monotone_amended.2.1 Bucket.s Bucket.xl (by decide) (by decide)⟩

/-- C2: with no established save identity (the blend-file basename is empty)
the operator cancels after a single error log entry, with an empty mutation
trace and the scene unchanged. -/
theorem precondition_failure_no_mutation (p : Prefs) (s0 : Scene)
    (h : s0.blendFileBasename = "") :
    (execute p s0).1 = .cancelled ∧
    (execute p s0).2.scene = s0 ∧
    (execute p s0).2.events = [] ∧
    ((execute p s0).2.log.filter (fun e => e.1 == Level.error)).length = 1 := by
  have hl : s0.blendFileBasename.length = 0 := by rw [h]; rfl
  refine ⟨by simp [execute, hl], by simp [execute, hl], by simp [execute, hl], ?_⟩
  simp [execute, hl, List.filter]
  decide

/-- Witness for C2 on the unsaved scene. -/
theorem precondition_failure_no_mutation_witness :
    (execute hairPrefs unsavedScene).1 = .cancelled ∧
    (execute hairPrefs unsavedScene).2.scene = unsavedScene ∧
    (execute hairPrefs unsavedScene).2.events = [] ∧
    ((execute hairPrefs unsavedScene).2.log.filter (fun e => e.1 == Level.error)).length = 1 :=
  precondition_failure_no_mutation hairPrefs unsavedScene rfl

theorem part3_spec (cap : CollisionCapture) (st : St) :
    (part3 cap st).scene.obj.mode = st.scene.obj.mode ∧
    (part3 cap st).scene.obj.collision = some (restoredCollision cap) ∧
    (part3 cap st).scene.obj.particle_systems = st.scene.obj.particle_systems ∧
    "Collision" ∈ (part3 cap st).scene.obj.modifiers ∧
    List.filterMap dcProj (part3 cap st).events = List.filterMap dcProj st.events ∧
    ((Event.settingsWrite "kink") ∈ (part3 cap st).events ↔
      (Event.settingsWrite "kink") ∈ st.events) := by
  refine ⟨?_, ?_, ?_, ?_, ?_, ?_⟩ <;>
    simp [part3, restoredCollision, dcProj]

theorem part1_ok_frame {st st' : St} {cap : CollisionCapture}
    (h : part1 st = .ok (cap, st')) :
    st'.scene.obj.mode = st.scene.obj.mode ∧
    st'.scene.obj.name = st.scene.obj.name ∧
    st'.scene.obj.particle_systems = st.scene.obj.particle_systems ∧
    st'.scene.obj.vertex_groups = st.scene.obj.vertex_groups ∧
    st'.scene.obj.material_slots = st.scene.obj.material_slots ∧
    st'.scene.frame_start = st.scene.frame_start ∧
    st'.scene.frame_end = st.scene.frame_end ∧
    st'.scene.hostCollisionDefault = st.scene.hostCollisionDefault ∧
    List.filterMap dcProj st'.events = List.filterMap dcProj st.events ∧
    ((Event.settingsWrite "kink") ∈ st'.events ↔ (Event.settingsWrite "kink") ∈ st.events) := by
  unfold part1 at h
  simp only [report, emit, modObj, opModeSet, opModifierRemove] at h
  rcases hf : findCollisionModifierName st.scene.obj.modifiers with _ | nm <;>
    rw [hf] at h
  · simp only [Except.ok.injEq, Prod.mk.injEq] at h
    obtain ⟨h1, h2⟩ := h
    subst h2
    refine ⟨rfl, rfl, rfl, rfl, rfl, rfl, rfl, rfl, ?_, ?_⟩ <;> simp [dcProj]
  · rcases hc : st.scene.obj.collision with _ | c <;> rw [hc] at h
    · exact absurd h (by simp)
    · simp only [Except.ok.injEq, Prod.mk.injEq] at h
      obtain ⟨h1, h2⟩ := h
      subst h2
      refine ⟨rfl, rfl, rfl, rfl, rfl, rfl, rfl, rfl, ?_, ?_⟩ <;> simp [dcProj]

theorem part1_ok_of_collision (st : St) {nm : String} {c : Collision}
    (hf : findCollisionModifierName st.scene.obj.modifiers = some nm)
    (hc : st.scene.obj.collision = some c) :
    ∃ st', part1 st = .ok (captureCollision c, st') := by
  unfold part1
  simp only [report, emit, modObj, opModeSet, opModifierRemove]
  rw [hf, hc]
  exact ⟨_, rfl⟩

theorem part1_ok_of_no_collision (st : St)
    (hf : findCollisionModifierName st.scene.obj.modifiers = none) :
    ∃ st', part1 st = .ok (fallbackCapture, st') := by
  unfold part1
  simp only [report, emit, modObj, opModeSet, opModifierRemove]
  rw [hf]
  exact ⟨_, rfl⟩

theorem part2_ok_mode {p : Prefs} {sysName : String} {st st' : St}
    (h : part2 p sysName st = .ok st') :
    st'.scene.obj.mode = st.scene.obj.mode := by
  unfold part2 at h
  simp only [report, emit, modObj, opModeSet, opParticleSystemAdd, wPS, wSet] at h
  split at h
  · split at h
    · split at h
      · rw [Except.ok.injEq] at h
        subst h
        simp only [part2writes, opModeSet, modObj, emit]
      · simp at h
    · rw [Except.ok.injEq] at h
      subst h
      simp only [part2writes, opModeSet, modObj, emit]
  · simp at h

set_option maxRecDepth 16384 in
set_option maxHeartbeats 2000000 in
theorem part2_ok_spec {p : Prefs} {sysName : String} {st st' : St}
    (h : part2 p sysName st = .ok st') :
    st'.scene.obj.mode = st.scene.obj.mode ∧
    st'.scene.obj.collision = st.scene.obj.collision ∧
    ((st'.scene.obj.particle_systems.getLast?).map ParticleSystem.use_hair_dynamics
      = some (derive p).hair_dynamics) ∧
    ((st'.scene.obj.particle_systems.getLast?).bind ParticleSystem.cloth
      = some configuredCloth) ∧
    ((st'.scene.obj.particle_systems.getLast?).map (fun ps => ps.settings.kink)
      = some (if (derive p).kink.isSome then "CURL" else "NO")) ∧
    (List.filterMap dcProj st'.events = List.filterMap dcProj st.events ++
      ([.setHairDynamics true, .clothWrite "mass", .clothWrite "bending_stiffness",
        .clothWrite "bending_damping", .clothWrite "distance_min"] ++
       (if (derive p).hair_dynamics then [] else [.setHairDynamics false]))) ∧
    ((Event.settingsWrite "kink") ∈ st'.events ↔
      (Event.settingsWrite "kink") ∈ st.events ∨ (derive p).kink.isSome) := by
  unfold part2 at h
  simp only [report, emit, modObj, opModeSet, opParticleSystemAdd, wPS, wSet] at h
  split at h
  · split at h
    · split at h
      · rw [Except.ok.injEq] at h
        subst h
        cases hu : (derive p).use_length_vertex_group <;>
          cases hdyn : (derive p).hair_dynamics <;>
          rcases hk : (derive p).kink with _ | k <;>
          by_cases hmat : (derive p).material = "" <;>
          by_cases hmem : (derive p).material ∈ st.scene.obj.material_slots <;>
          simp [part2writes, hk, hu, hdyn, hmat, hmem, dcProj, configuredCloth,
            hostNewParticleSystem, hostDefaultPSettings]
      · simp at h
    · rw [Except.ok.injEq] at h
      subst h
      cases hdyn : (derive p).hair_dynamics <;>
        rcases hk : (derive p).kink with _ | k <;>
        by_cases hmat : (derive p).material = "" <;>
        by_cases hmem : (derive p).material ∈ st.scene.obj.material_slots <;>
        simp [part2writes, hk, hdyn, hmat, hmem, dcProj, configuredCloth,
          hostNewParticleSystem, hostDefaultPSettings]
  · simp at h

@[simp] theorem startLog_scene (p : Prefs) (s0 : Scene) :
    (startLog p s0).scene = s0 := rfl

@[simp] theorem startLog_events (p : Prefs) (s0 : Scene) :
    (startLog p s0).events = [] := rfl

theorem length_ne_zero_of_ne_empty {s : String} (h : s ≠ "") : s.length ≠ 0 := by
  cases s with
  | mk d =>
    simpa [String.length, List.length_eq_zero] using fun hd => h (by simp [hd])

theorem part2_ok_exists {p : Prefs} (sysName : String) {st : St}
    (hobj : p.object_name = st.scene.obj.name)
    (hvg : p.vertex_group_name = "" ∨ p.vertex_group_name ∈ st.scene.obj.vertex_groups) :
    ∃ st', part2 p sysName st = .ok st' := by
  unfold part2
  simp only [report, emit, modObj, opModeSet, opParticleSystemAdd, wPS, wSet]
  rw [if_pos hobj]
  by_cases hv : p.vertex_group_name = ""
  · rw [if_neg (by simp [hv])]
    exact ⟨_, rfl⟩
  · rw [if_pos hv]
    rcases hvg with h | h
    · exact absurd h hv
    · rw [if_pos h]
      exact ⟨_, rfl⟩

theorem derive_kink_some (p : Prefs) :
    (derive p).kink.isSome = true ↔
      (p.enum_hair_system = .arm_hair ∨ p.enum_hair_system = .back_hair ∨
       p.enum_hair_system = .chest_hair ∨ p.enum_hair_system = .leg_hair) := by
  cases hs : p.enum_hair_system <;> simp [derive, hs]

theorem execute_finished_cases {p : Prefs} {s0 : Scene} {st : St}
    (h : execute p s0 = (.finished, st)) :
    ∃ cap st1 st2, part1 (startLog p s0) = .ok (cap, st1) ∧
      part2 p (systemDisplayName p) st1 = .ok st2 ∧ st = part3 cap st2 := by
  unfold execute at h
  split at h
  · exact absurd h (by simp)
  · rcases hpart1 : part1 (startLog p s0) with stE | ⟨cap, st1⟩
    · rw [hpart1] at h
      simp at h
    · rw [hpart1] at h
      dsimp only at h
      rcases hpart2 : part2 p (systemDisplayName p) st1 with stE | st2
      · rw [hpart2] at h
        simp at h
      · rw [hpart2] at h
        dsimp only at h
        simp only [Prod.mk.injEq] at h
        exact ⟨cap, st1, st2, rfl, hpart2, h.2.symm⟩

/-- C9: on every successful provisioning run, the interaction mode of the
active object at completion equals the mode it had before the run began. -/
theorem mode_restored (p : Prefs) (s0 : Scene) (st : St)
    (h : execute p s0 = (.finished, st)) :
    st.scene.obj.mode = s0.obj.mode := by
  obtain ⟨cap, st1, st2, h1, h2, h3⟩ := execute_finished_cases h
  subst h3
  rw [(part3_spec cap st2).1, (part2_ok_spec h2).1, (part1_ok_frame h1).1, startLog_scene]

/-- Witness for C9: a concrete successful hair run on the Body scene leaves
the object in its entry mode. -/
theorem mode_restored_witness :
    (execute hairPrefs bodyScene).2.scene.obj.mode = "SCULPT" := by
  rw [mode_restored hairPrefs bodyScene (execute hairPrefs bodyScene).2 rfl]
  rfl

/-- C8: on every successful provisioning run hair dynamics is enabled first,
then the cloth block is configured (vertex mass 0.001, bending stiffness 1,
bending damping 0, minimum collision distance 0.001, recorded in the
configuredCloth record), then dynamics is switched back off exactly when the
preset flag is false; at completion the dynamics flag of the new system
equals the preset flag and the cloth constants are recorded. -/
theorem dynamics_enable_configure_disable (p : Prefs) (s0 : Scene) (st : St)
    (h : execute p s0 = (.finished, st)) :
    List.filterMap dcProj st.events =
      [.setHairDynamics true, .clothWrite "mass", .clothWrite "bending_stiffness",
       .clothWrite "bending_damping", .clothWrite "distance_min"] ++
      (if (derive p).hair_dynamics then [] else [.setHairDynamics false]) ∧
    (st.scene.obj.particle_systems.getLast?).map ParticleSystem.use_hair_dynamics
      = some (derive p).hair_dynamics ∧
    (st.scene.obj.particle_systems.getLast?).bind ParticleSystem.cloth
      = some configuredCloth := by
  obtain ⟨cap, st1, st2, h1, h2, h3⟩ := execute_finished_cases h
  subst h3
  refine ⟨?_, ?_, ?_⟩
  · rw [(part3_spec cap st2).2.2.2.2.1, (part2_ok_spec h2).2.2.2.2.2.1,
      (part1_ok_frame h1).2.2.2.2.2.2.2.2.1, startLog_events]
    simp
  · rw [(part3_spec cap st2).2.2.1]
    exact (part2_ok_spec h2).2.2.1
  · rw [(part3_spec cap st2).2.2.1]
    exact (part2_ok_spec h2).2.2.2.1

/-- Witness for C8 on a concrete successful hair run. -/
theorem dynamics_enable_configure_disable_witness :
    List.filterMap dcProj (execute hairPrefs bodyScene).2.events =
      [.setHairDynamics true, .clothWrite "mass", .clothWrite "bending_stiffness",
       .clothWrite "bending_damping", .clothWrite "distance_min"] ++
      (if (derive hairPrefs).hair_dynamics then [] else [.setHairDynamics false]) ∧
    ((execute hairPrefs bodyScene).2.scene.obj.particle_systems.getLast?).map
      ParticleSystem.use_hair_dynamics = some (derive hairPrefs).hair_dynamics ∧
    ((execute hairPrefs bodyScene).2.scene.obj.particle_systems.getLast?).bind
      ParticleSystem.cloth = some configuredCloth :=
  dynamics_enable_configure_disable hairPrefs bodyScene (execute hairPrefs bodyScene).2 rfl

/-- C5 amended: on every successful provisioning run the kink sub-record is
written onto the new system settings exactly for the four curl presets (arm
hair, back hair, chest hair, leg hair) and for none of stubble, hair, fur,
eyelashes, eyebrows. -/
theorem kink_written_iff (p : Prefs) (s0 : Scene) (st : St)
    (h : execute p s0 = (.finished, st)) :
    ((Event.settingsWrite "kink") ∈ st.events ↔
      (p.enum_hair_system = .arm_hair ∨ p.enum_hair_system = .back_hair ∨
       p.enum_hair_system = .chest_hair ∨ p.enum_hair_system = .leg_hair)) := by
  obtain ⟨cap, st1, st2, h1, h2, h3⟩ := execute_finished_cases h
  subst h3
  rw [(part3_spec cap st2).2.2.2.2.2, (part2_ok_spec h2).2.2.2.2.2.2,
    (part1_ok_frame h1).2.2.2.2.2.2.2.2.2, startLog_events]
  simp [derive_kink_some]

/-- Witness for the amended C5: an arm-hair run writes the kink block. -/
theorem kink_written_iff_witness :
    (Event.settingsWrite "kink") ∈ (execute armHairPrefs bodyScene).2.events :=
  (kink_written_iff armHairPrefs bodyScene (execute armHairPrefs bodyScene).2 rfl).mpr
    (Or.inl rfl)

/-- C5 counterexample: a successful stubble run never writes the kink block,
refuting the claim that all five body-hair presets write it. -/
theorem stubble_kink_not_written :
    (execute stubblePrefs bodyScene).1 = .finished ∧
    (Event.settingsWrite "kink") ∉ (execute stubblePrefs bodyScene).2.events := by
  decide

/-- C3: when the target object carries a collision modifier at entry, a
successful run recreates a collision modifier whose 13 captured fields equal
their entry values and whose outer thickness equals the fixed override 0.015,
for every preset. -/
theorem collision_swap (p : Prefs) (s0 : Scene) (nm : String) (c : Collision)
    (hb : s0.blendFileBasename ≠ "")
    (hobj : p.object_name = s0.obj.name)
    (hvg : p.vertex_group_name = "" ∨ p.vertex_group_name ∈ s0.obj.vertex_groups)
    (hfind : findCollisionModifierName s0.obj.modifiers = some nm)
    (hcol : s0.obj.collision = some c) :
    (execute p s0).1 = .finished ∧
    "Collision" ∈ (execute p s0).2.scene.obj.modifiers ∧
    (execute p s0).2.scene.obj.collision = some (restoredCollision (captureCollision c)) := by
  have hlen := length_ne_zero_of_ne_empty hb
  obtain ⟨st1, h1⟩ := part1_ok_of_collision (startLog p s0) hfind hcol
  have hf1 := part1_ok_frame h1
  have hobj1 : p.object_name = st1.scene.obj.name := by
    rw [hf1.2.1, startLog_scene]
    exact hobj
  have hvg1 : p.vertex_group_name = "" ∨ p.vertex_group_name ∈ st1.scene.obj.vertex_groups := by
    rcases hvg with hv | hv
    · exact Or.inl hv
    · exact Or.inr (by rw [hf1.2.2.2.1, startLog_scene]; exact hv)
  obtain ⟨st2, h2⟩ := part2_ok_exists (systemDisplayName p) hobj1 hvg1
  have hex : execute p s0 = (.finished, part3 (captureCollision c) st2) := by
    unfold execute
    rw [if_neg hlen]
    simp only [h1, h2]
  rw [hex]
  exact ⟨rfl, (part3_spec _ st2).2.2.2.1, (part3_spec _ st2).2.1⟩

/-- Witness for C3: a hair run on the Body object with a collision modifier
whose stickiness is 0.3 ends with the captured values restored (stickiness
0.3) and outer thickness 0.015. -/
theorem collision_swap_witness :
    (execute hairPrefs bodySceneWithCollision).1 = .finished ∧
    (execute hairPrefs bodySceneWithCollision).2.scene.obj.collision =
      some (restoredCollision (captureCollision sampleCollision)) :=
  ⟨(collision_swap hairPrefs bodySceneWithCollision "Collision" sampleCollision
      (by decide) rfl (Or.inl rfl) (by decide) rfl).1,
   (collision_swap hairPrefs bodySceneWithCollision "Collision" sampleCollision
      (by decide) rfl (Or.inl rfl) (by decide) rfl).2.2⟩

/-- C10: when the target object has no collision modifier at entry, a
successful run still adds one and explicitly overwrites all 13 fields with
the fixed fallback values of lines 114..126 plus outer thickness 0.015,
independently of whatever defaults the host assigns to a fresh modifier. -/
theorem fresh_collision_overwritten (p : Prefs) (s0 : Scene)
    (hb : s0.blendFileBasename ≠ "")
    (hobj : p.object_name = s0.obj.name)
    (hvg : p.vertex_group_name = "" ∨ p.vertex_group_name ∈ s0.obj.vertex_groups)
    (hfind : findCollisionModifierName s0.obj.modifiers = none) :
    (execute p s0).1 = .finished ∧
    "Collision" ∈ (execute p s0).2.scene.obj.modifiers ∧
    (execute p s0).2.scene.obj.collision = some
      { absorption := 0, permeability := 0.1, stickiness := 0.1,
        use_particle_kill := false, damping_factor := 0, damping_random := 0,
        friction_factor := 0, friction_random := 0, damping := 0.1,
        cloth_friction := 5, use_culling := true, use_normal := false,
        thickness_inner := 0.2, thickness_outer := 0.015 } := by
  have hlen := length_ne_zero_of_ne_empty hb
  obtain ⟨st1, h1⟩ := part1_ok_of_no_collision (startLog p s0) hfind
  have hf1 := part1_ok_frame h1
  have hobj1 : p.object_name = st1.scene.obj.name := by
    rw [hf1.2.1, startLog_scene]
    exact hobj
  have hvg1 : p.vertex_group_name = "" ∨ p.vertex_group_name ∈ st1.scene.obj.vertex_groups := by
    rcases hvg with hv | hv
    · exact Or.inl hv
    · exact Or.inr (by rw [hf1.2.2.2.1, startLog_scene]; exact hv)
  obtain ⟨st2, h2⟩ := part2_ok_exists (systemDisplayName p) hobj1 hvg1
  have hex : execute p s0 = (.finished, part3 fallbackCapture st2) := by
    unfold execute
    rw [if_neg hlen]
    simp only [h1, h2]
  rw [hex]
  refine ⟨rfl, (part3_spec _ st2).2.2.2.1, ?_⟩
  rw [(part3_spec _ st2).2.1]
  simp [restoredCollision, fallbackCapture]

/-- Witness for C10 on the bare Body scene. -/
theorem fresh_collision_overwritten_witness :
    (execute hairPrefs bodyScene).1 = .finished ∧
    (execute hairPrefs bodyScene).2.scene.obj.collision = some
      { absorption := 0, permeability := 0.1, stickiness := 0.1,
        use_particle_kill := false, damping_factor := 0, damping_random := 0,
        friction_factor := 0, friction_random := 0, damping := 0.1,
        cloth_friction := 5, use_culling := true, use_normal := false,
        thickness_inner := 0.2, thickness_outer := 0.015 } :=
  ⟨(fresh_collision_overwritten hairPrefs bodyScene (by decide) rfl (Or.inl rfl) rfl).1,
   (fresh_collision_overwritten hairPrefs bodyScene (by decide) rfl (Or.inl rfl) rfl).2.2⟩

end CreateHairSystem
